import Mathlib

/-!
Verification development for the prototype-thesis restroom-monitoring
repository.  The microcontroller sketches are embedded shallowly:

* the occupancy-detection sketch (src/unnamed/part_000, both the plain and
  the LCD variant share one loop body) becomes a step function on an
  explicit state record;
* the ESP32 odor sketch (src/odor-mod-main/odor-calibriate/call-i2c-slave)
  contributes the average, fan and freshener logic;
* the analog receiver sketch (src/odor-mod-main/arduino-analog-recieve)
  contributes the raw-range handling.

Float quantities are modelled over the rationals; every comparison the
claims exercise involves integer-valued thresholds and integer-valued
inputs, where float and rational arithmetic agree exactly.  The Arduino
millis() clock is an unsigned 32-bit counter; times are modelled as
naturals with truncated subtraction, which coincides with the unsigned
arithmetic of the source on wrap-free (monotone, < 2^32 ms) executions.

The host-side aggregation and persistence script (odor-mod-main.py) is
referenced throughout the repository (compose/odor-module.md,
compose/merging-modules.md) but its code is not present; the
FaultTolerantAggregator and PersistenceGateway sections below are
modelled from the spec, as marked on each definition.
-/

/-! ## Occupancy detection (src/unnamed/part_000)

State of the occupancy loop: `visitorCount` starts at -1 (the sketch
comments call this an offset applied at initialization), `isOccupied`
starts false (vacant), `lastSensorState` starts HIGH (no obstacle),
`lastDetectionTime` starts 0.  The raw pin level is a Bool with
`true = HIGH` (idle, no detection) and `false = LOW` (obstacle detected).
-/

structure OccState where
  visitorCount : Int
  isOccupied : Bool
  lastSensorState : Bool
  lastDetectionTime : Nat
deriving DecidableEq

/-- Transition events printed by the sketch: double beep / LED on for
Occupied, long beep / LED off for Vacant. -/
inductive OccEvent where
  | occupied
  | vacant
deriving DecidableEq

/-- 1 second debounce, DEBOUNCE_DELAY in the sketch. -/
def DEBOUNCE_DELAY : Nat := 1000

/-- Initial state of the occupancy sketch: visitorCount = -1,
isOccupied = false, lastSensorState = HIGH, lastDetectionTime = 0. -/
def occInit : OccState :=
  { visitorCount := -1, isOccupied := false,
    lastSensorState := true, lastDetectionTime := 0 }

/-- One iteration of the occupancy loop body (lines 59-96 of
src/unnamed/part_000; the LCD variant at lines 194-233 has the same
control flow).  `raw` is the sampled pin level, `now` the millis()
value.  Returns the successor state and the emitted event, if any. -/
def occStep (st : OccState) (raw : Bool) (now : Nat) : OccState × Option OccEvent :=
  if raw ≠ st.lastSensorState ∧ now - st.lastDetectionTime > DEBOUNCE_DELAY then
    if raw = false then
      if st.isOccupied = false then
        ({ visitorCount := st.visitorCount + 1, isOccupied := true,
           lastSensorState := raw, lastDetectionTime := now }, some OccEvent.occupied)
      else
        ({ visitorCount := st.visitorCount, isOccupied := false,
           lastSensorState := raw, lastDetectionTime := now }, some OccEvent.vacant)
    else
      ({ st with lastSensorState := raw }, none)
  else
    (st, none)

/-- Run the occupancy loop over a list of (raw level, millis) samples,
collecting the emitted events together with the time they occurred. -/
def occRun (st : OccState) : List (Bool × Nat) → OccState × List (OccEvent × Nat)
  | [] => (st, [])
  | (raw, now) :: rest =>
    let p := occStep st raw now
    let q := occRun p.1 rest
    (q.1, (match p.2 with
           | some e => [(e, now)]
           | none => []) ++ q.2)

/-! ## Fan control (src/odor-mod-main/odor-calibriate/call-i2c-slave, controlFan)

The sketch keeps `fanStatus` (0/1, modelled as Bool) and uses the single
constant 200 for both directions: fan turns on when avgAQI > 200 and it
was off, turns off when avgAQI <= 200 and it was on. -/

def controlFan (fanStatus : Bool) (avgAQI : ℚ) : Bool :=
  if avgAQI > 200 ∧ fanStatus = false then true
  else if avgAQI ≤ 200 ∧ fanStatus = true then false
  else fanStatus

/-- The fan state after each input of a scalar sequence. -/
def fanRun (st : Bool) : List ℚ → List Bool
  | [] => []
  | a :: rest =>
    let st2 := controlFan st a
    st2 :: fanRun st2 rest

/-! ## Freshener control (call-i2c-slave, controlFreshener)

The sketch pulses the freshener relay when (avgAQI > 300 or a vacate
event) and the `freshenerTriggered` latch is clear, then sets the latch;
the latch is cleared on a tick with avgAQI <= 300 and no vacate event.
There is no time parameter: the function has no cooldown timer. -/

def controlFreshener (freshenerTriggered : Bool) (avgAQI : ℚ) (vacated : Bool) :
    Bool × Bool :=
  if (avgAQI > 300 ∨ vacated = true) ∧ freshenerTriggered = false then
    (true, true)
  else if avgAQI ≤ 300 ∧ vacated = false then
    (false, false)
  else
    (freshenerTriggered, false)

/-- Run the freshener logic over (avgAQI, vacated) ticks, returning the
pulse flag of each tick. -/
def freshRun (st : Bool) : List (ℚ × Bool) → List Bool
  | [] => []
  | (a, v) :: rest =>
    let p := controlFreshener st a v
    p.2 :: freshRun p.1 rest

/-! ## Raw-range handling of the analog receiver
(src/odor-mod-main/arduino-analog-recieve, loop lines 35-38)

The sketch reads rawValue = analogRead(pin) and replaces any value
outside 0..1023 with 0 before converting to AQI; the previously stored
value for the channel plays no part. -/

def adjustedRaw (raw : Int) : Int :=
  if raw < 0 ∨ raw > 1023 then 0 else raw

/-- The value stored for a channel after one loop pass is a function of
the adjusted raw reading alone; `stored` (the last-known value) is
ignored by the sketch.  This definition records that data flow. -/
def receiveStep (stored : Int) (raw : Int) : Int :=
  adjustedRaw raw

/-! ## FaultTolerantAggregator (modelled from the spec)

The fault-tolerant averaging lives in the host-side script
odor-mod-main.py, which the repository references (compose/odor-module.md:
a failed sensor's contribution is replaced by the average of the working
sensors) but whose code is not included.  The definitions below are
modelled from the spec, sections 3 and 4.2. -/

/-- Modelled from the spec: SensorReading, one channel's sample for a
tick, with its validity flag (odor-mod-main.py is missing from the
repository). -/
structure SensorReading where
  channel_id : Nat
  value : ℚ
  valid : Bool
deriving DecidableEq

/-- Modelled from the spec: the Aggregate produced each tick — every
channel present in `values`, substituted channels listed in
`faulted_channels` (odor-mod-main.py is missing from the repository). -/
structure Aggregate where
  values : List (Nat × ℚ)
  faulted_channels : List Nat
deriving DecidableEq

/-- Modelled from the spec: the mean of the valid readings of a tick,
or none when no reading is valid (odor-mod-main.py is missing from the
repository). -/
def healthyMean (readings : List SensorReading) : Option ℚ :=
  let vs := (readings.filter (fun r => r.valid)).map (fun r => r.value)
  if vs.isEmpty then none else some (vs.sum / (vs.length : ℚ))

/-- Modelled from the spec, section 4.2: one aggregation tick
(odor-mod-main.py is missing from the repository).  `carried` is the
last successfully computed healthy mean.  Valid readings contribute
their own value; invalid ones contribute the tick's healthy mean and
their channel id is recorded in `faulted_channels`.  When every channel
is invalid the aggregate is still produced, filled from `carried`, with
every channel faulted.  Returns the aggregate and the new carried
mean. -/
def aggregateStep (carried : ℚ) (readings : List SensorReading) : Aggregate × ℚ :=
  match healthyMean readings with
  | some m =>
    ({ values := readings.map (fun r => (r.channel_id, if r.valid then r.value else m)),
       faulted_channels := (readings.filter (fun r => r.valid = false)).map
         (fun r => r.channel_id) }, m)
  | none =>
    ({ values := readings.map (fun r => (r.channel_id, carried)),
       faulted_channels := readings.map (fun r => r.channel_id) }, carried)

/-! ## PersistenceGateway (modelled from the spec)

The dual-target persistence protocol also lives in the missing
odor-mod-main.py (compose/odor-module.md documents the MongoDB `_id`
being synced back into the local JSON copy); the on-device logData of
call-i2c-slave.ino writes the local SPIFFS file only.  The definitions
below are modelled from the spec, sections 3 and 4.6. -/

/-- Modelled from the spec: sync lifecycle of a persisted record
(odor-mod-main.py is missing from the repository). -/
inductive SyncState where
  | PendingLocalOnly
  | Synced
  | SyncFailed
deriving DecidableEq

/-- Modelled from the spec: a locally persisted record; `record_id` is
the remote-assigned identifier once known (odor-mod-main.py is missing
from the repository). -/
structure PersistedRecord where
  record_id : Option Nat
  timestamp : Nat
  sync_state : SyncState
deriving DecidableEq

/-- Modelled from the spec: gateway state — the local durable store, the
remote store as (assigned id, timestamp) pairs, and the remote id
counter (odor-mod-main.py is missing from the repository). -/
structure GatewayState where
  localStore : List PersistedRecord
  remoteStore : List (Nat × Nat)
  nextRemoteId : Nat
deriving DecidableEq

/-- Modelled from the spec, section 4.6: one persistence attempt
(odor-mod-main.py is missing from the repository).  The local durable
write happens first and unconditionally; the remote write is attempted
second only when the remote store is up.  On remote success the
remote-assigned id is back-filled and the record is Synced; on remote
failure the record is kept with sync_state = SyncFailed. -/
def gatewayRecord (st : GatewayState) (remoteUp : Bool) (ts : Nat) : GatewayState :=
  if remoteUp then
    { localStore := st.localStore ++
        [{ record_id := some st.nextRemoteId, timestamp := ts,
           sync_state := SyncState.Synced }],
      remoteStore := st.remoteStore ++ [(st.nextRemoteId, ts)],
      nextRemoteId := st.nextRemoteId + 1 }
  else
    { localStore := st.localStore ++
        [{ record_id := none, timestamp := ts, sync_state := SyncState.SyncFailed }],
      remoteStore := st.remoteStore,
      nextRemoteId := st.nextRemoteId }

/-- Modelled from the spec: the retry pass over the local store run on a
health-recovered event (odor-mod-main.py is missing from the
repository).  Walks the records oldest-first; each SyncFailed record is
retried once — `ok` says whether the remote accepts writes during this
event.  Returns the updated local store, the updated remote store, the
next remote id, and the list of timestamps attempted. -/
def drainRetries (ok : Bool) (nextId : Nat) (remote : List (Nat × Nat)) :
    List PersistedRecord → List PersistedRecord × List (Nat × Nat) × Nat × List Nat
  | [] => ([], remote, nextId, [])
  | r :: rest =>
    if r.sync_state = SyncState.SyncFailed then
      if ok then
        let q := drainRetries ok (nextId + 1) (remote ++ [(nextId, r.timestamp)]) rest
        ({ record_id := some nextId, timestamp := r.timestamp,
           sync_state := SyncState.Synced } :: q.1, q.2.1, q.2.2.1, r.timestamp :: q.2.2.2)
      else
        let q := drainRetries ok nextId remote rest
        (r :: q.1, q.2.1, q.2.2.1, r.timestamp :: q.2.2.2)
    else
      let q := drainRetries ok nextId remote rest
      (r :: q.1, q.2.1, q.2.2.1, q.2.2.2)

/-- Modelled from the spec: the PersistenceGateway reaction to a
LinkSupervisor health-recovered event (odor-mod-main.py is missing from
the repository).  Returns the new state and the timestamps of the
records that were retried during the event. -/
def healthRecovered (st : GatewayState) (ok : Bool) : GatewayState × List Nat :=
  let q := drainRetries ok st.nextRemoteId st.remoteStore st.localStore
  ({ localStore := q.1, remoteStore := q.2.1, nextRemoteId := q.2.2.1 }, q.2.2.2)

example : occStep occInit false 2000 =
    ({ visitorCount := 0, isOccupied := true,
       lastSensorState := false, lastDetectionTime := 2000 }, some OccEvent.occupied) := by
  decide

example : fanRun false [210, 225, 215, 195] = [true, true, true, false] := by
  decide

example : freshRun false [(310, false), (300, false), (310, false)] =
    [true, false, true] := by
  decide

/-! ## Occupancy lemmas -/

/-- Any emission of the occupancy loop happens strictly more than
DEBOUNCE_DELAY after the previous honored detection and stamps the
detection time with the current time. -/
theorem occStep_emit_time (st : OccState) (raw : Bool) (now : Nat) (e : OccEvent)
    (h : (occStep st raw now).2 = some e) :
    st.lastDetectionTime + DEBOUNCE_DELAY < now ∧
    (occStep st raw now).1.lastDetectionTime = now := by
  unfold occStep at h ⊢
  split at h
  case isTrue hc =>
    have hgap : st.lastDetectionTime + DEBOUNCE_DELAY < now := by omega
    split at h
    case isTrue hlow =>
      split at h <;> simp_all
    case isFalse hlow =>
      simp_all
  case isFalse hc =>
    simp_all

/-- A non-emitting iteration leaves the detection timestamp unchanged. -/
theorem occStep_none_time (st : OccState) (raw : Bool) (now : Nat)
    (h : (occStep st raw now).2 = none) :
    (occStep st raw now).1.lastDetectionTime = st.lastDetectionTime := by
  by_cases hc : raw ≠ st.lastSensorState ∧ now - st.lastDetectionTime > DEBOUNCE_DELAY
  · have hst : st.lastSensorState = !raw := by
      rcases hc with ⟨hne, _⟩
      cases raw <;> cases hls : st.lastSensorState <;> simp_all
    rcases Bool.eq_false_or_eq_true raw with hlow | hlow
    · subst hlow
      simp [occStep, hc, hst]
    · subst hlow
      by_cases hocc : st.isOccupied = false
      · simp [occStep, hc, hst, hocc] at h
      · simp [occStep, hc, hst, hocc] at h
  · simp [occStep, hc]

/-- Events in a run are all later than the starting detection timestamp
plus the debounce window, and pairwise more than DEBOUNCE_DELAY apart. -/
theorem occRun_gap (st : OccState) (samples : List (Bool × Nat)) :
    (∀ p ∈ (occRun st samples).2, st.lastDetectionTime + DEBOUNCE_DELAY < p.2) ∧
    List.Pairwise (fun p q : OccEvent × Nat => p.2 + DEBOUNCE_DELAY < q.2)
      (occRun st samples).2 := by
  induction samples generalizing st with
  | nil => simp [occRun]
  | cons s rest ih =>
    obtain ⟨raw, now⟩ := s
    show (∀ p ∈ (occRun st ((raw, now) :: rest)).2, _) ∧ _
    rcases hev : (occStep st raw now).2 with _ | e
    · have hrun : occRun st ((raw, now) :: rest) = occRun (occStep st raw now).1 rest := by
        simp [occRun, hev]
      have htime := occStep_none_time st raw now hev
      rcases ih (occStep st raw now).1 with ⟨hall, hpw⟩
      rw [hrun]
      exact ⟨fun p hp => by have := hall p hp; omega, hpw⟩
    · have hrun : (occRun st ((raw, now) :: rest)).2 =
          (e, now) :: (occRun (occStep st raw now).1 rest).2 := by
        simp [occRun, hev]
      have hrun1 : (occRun st ((raw, now) :: rest)).1 =
          (occRun (occStep st raw now).1 rest).1 := by
        simp [occRun]
      rcases occStep_emit_time st raw now e hev with ⟨hgap, htime⟩
      rcases ih (occStep st raw now).1 with ⟨hall, hpw⟩
      rw [hrun]
      refine ⟨?_, ?_⟩
      · intro p hp
        rcases List.mem_cons.mp hp with hp | hp
        · subst hp; exact hgap
        · have := hall p hp; omega
      · refine List.Pairwise.cons ?_ hpw
        intro q hq
        have := hall q hq
        simp only [htime] at this
        omega

/-- In a list whose entries are pairwise more than DEBOUNCE_DELAY apart,
any window of length DEBOUNCE_DELAY contains at most one entry. -/
theorem pairwise_gap_window (l : List (OccEvent × Nat)) (t : Nat)
    (h : List.Pairwise (fun p q : OccEvent × Nat => p.2 + DEBOUNCE_DELAY < q.2) l) :
    l.countP (fun p => decide (t ≤ p.2 ∧ p.2 ≤ t + DEBOUNCE_DELAY)) ≤ 1 := by
  induction l with
  | nil => simp
  | cons a l ih =>
    rcases List.pairwise_cons.mp h with ⟨ha, hl⟩
    by_cases hw : t ≤ a.2 ∧ a.2 ≤ t + DEBOUNCE_DELAY
    · have hzero : l.countP (fun p => decide (t ≤ p.2 ∧ p.2 ≤ t + DEBOUNCE_DELAY)) = 0 := by
        rw [List.countP_eq_zero]
        intro p hp
        have := ha p hp
        simp only [decide_eq_true_eq]
        omega
      rw [List.countP_cons, hzero]
      split <;> omega
    · rw [List.countP_cons]
      simp only [decide_eq_true_eq, hw]
      simpa using ih hl

/-- Each loop iteration raises visitorCount by one exactly when it emits
an Occupied event, and leaves it unchanged otherwise. -/
theorem occStep_visitor (st : OccState) (raw : Bool) (now : Nat) :
    (occStep st raw now).1.visitorCount =
      st.visitorCount +
        (if (occStep st raw now).2 = some OccEvent.occupied then 1 else 0) := by
  unfold occStep
  split
  · split
    · split <;> simp
    · simp
  · simp

/-- C7: after priming considerations aside, any window of one
DEBOUNCE_PERIOD (DEBOUNCE_DELAY = 1000 ms) of an execution of the
occupancy loop from its initial state contains at most one honored
transition: two raw flips within one DEBOUNCE_PERIOD of each other can
therefore produce at most one honored occupancy transition. -/
theorem c7_debounce_window (samples : List (Bool × Nat)) (t : Nat) :
    (occRun occInit samples).2.countP
      (fun p => decide (t ≤ p.2 ∧ p.2 ≤ t + DEBOUNCE_DELAY)) ≤ 1 :=
  pairwise_gap_window (occRun occInit samples).2 t (occRun_gap occInit samples).2

/-- C8: across every execution of the occupancy loop, visitorCount ends
at its starting value plus exactly the number of emitted Occupied
(vacant-to-occupied) events — so it rises by exactly 1 per confirmed
vacant-to-occupied transition, is unchanged by occupied-to-vacant
transitions, and never decrements. -/
theorem c8_visitor_count (st : OccState) (samples : List (Bool × Nat)) :
    (occRun st samples).1.visitorCount =
      st.visitorCount +
        ((occRun st samples).2.countP (fun p => decide (p.1 = OccEvent.occupied)) : Int) ∧
    st.visitorCount ≤ (occRun st samples).1.visitorCount := by
  have key : ∀ (l : List (Bool × Nat)) (s : OccState),
      (occRun s l).1.visitorCount =
        s.visitorCount +
          ((occRun s l).2.countP (fun p => decide (p.1 = OccEvent.occupied)) : Int) := by
    intro l
    induction l with
    | nil => intro s; simp [occRun]
    | cons x rest ih =>
      intro s
      obtain ⟨raw, now⟩ := x
      have hstep := occStep_visitor s raw now
      rcases hev : (occStep s raw now).2 with _ | e
      · have h1 : (occRun s ((raw, now) :: rest)).1 = (occRun (occStep s raw now).1 rest).1 := by
          simp [occRun]
        have h2 : (occRun s ((raw, now) :: rest)).2 = (occRun (occStep s raw now).1 rest).2 := by
          simp [occRun, hev]
        rw [h1, h2, ih]
        rw [hev] at hstep
        simp at hstep
        rw [hstep]
      · have h1 : (occRun s ((raw, now) :: rest)).1 = (occRun (occStep s raw now).1 rest).1 := by
          simp [occRun]
        have h2 : (occRun s ((raw, now) :: rest)).2 =
            (e, now) :: (occRun (occStep s raw now).1 rest).2 := by
          simp [occRun, hev]
        rw [h1, h2, ih, List.countP_cons]
        rw [hev] at hstep
        cases e
        · simp at hstep ⊢
          rw [hstep]
          ring
        · simp at hstep ⊢
          rw [hstep]
  refine ⟨key samples st, ?_⟩
  rw [key samples st]
  have : (0 : Int) ≤ ((occRun st samples).2.countP
      (fun p => decide (p.1 = OccEvent.occupied)) : Int) := by positivity
  omega

/-- C10: a raw sample reading HIGH (idle, no detection) never changes
the occupancy flag or the visitor count and never emits an event; every
emitted transition — Occupied or Vacant — happens on a LOW sample, so a
vacate event occurs only on a new LOW detection pulse while occupied,
never when the sensor returns to its idle HIGH level. -/
theorem c10_high_sample_inert (st : OccState) (raw : Bool) (now : Nat) :
    ((occStep st true now).2 = none ∧
     (occStep st true now).1.isOccupied = st.isOccupied ∧
     (occStep st true now).1.visitorCount = st.visitorCount) ∧
    (∀ e : OccEvent, (occStep st raw now).2 = some e → raw = false) := by
  have hhigh : ∀ (s : OccState) (n : Nat),
      (occStep s true n).2 = none ∧
      (occStep s true n).1.isOccupied = s.isOccupied ∧
      (occStep s true n).1.visitorCount = s.visitorCount := by
    intro s n
    by_cases hc : (true : Bool) ≠ s.lastSensorState ∧
        n - s.lastDetectionTime > DEBOUNCE_DELAY
    · unfold occStep
      rw [if_pos hc]
      simp
    · unfold occStep
      rw [if_neg hc]
      simp
  refine ⟨hhigh st now, ?_⟩
  intro e he
  rcases Bool.eq_false_or_eq_true raw with hr | hr
  · subst hr
    rw [(hhigh st now).1] at he
    cases he
  · exact hr

/-- C10 witness: a concrete emitting sample (the first LOW after the
debounce window from the initial state) indeed reads LOW. -/
theorem c10_witness : (false : Bool) = false :=
  (c10_high_sample_inert occInit false 2000).2 OccEvent.occupied (by decide)

/-- C6 counterexample: the claim says the first raw sample after
construction never produces a transition event, whatever its value.  In
the sketch there is no priming flag: from the initial state
(visitorCount = -1, lastSensorState = HIGH, lastDetectionTime = 0), a
first sample reading LOW at 2000 ms already emits an Occupied
transition. -/
theorem c6_counterexample :
    (occStep occInit false 2000).2 = some OccEvent.occupied ∧
    occInit.visitorCount = -1 := by
  decide

/-- C6 amended: the sketch has no priming step.  A first raw sample of
HIGH changes nothing and emits nothing; a first raw sample of LOW taken
more than DEBOUNCE_DELAY after power-on emits an Occupied transition and
increments visitorCount from its initial offset -1 to 0, so the first
reported visitor count is 0. -/
theorem c6_first_sample (now : Nat) (h : DEBOUNCE_DELAY < now) :
    occStep occInit true now = (occInit, none) ∧
    occStep occInit false now =
      ({ visitorCount := 0, isOccupied := true, lastSensorState := false,
         lastDetectionTime := now }, some OccEvent.occupied) := by
  constructor
  · simp [occStep, occInit]
  · have hc : (false : Bool) ≠ occInit.lastSensorState ∧
        now - occInit.lastDetectionTime > DEBOUNCE_DELAY := by
      refine ⟨by simp [occInit], ?_⟩
      show DEBOUNCE_DELAY < now - occInit.lastDetectionTime
      simp [occInit]
      exact h
    unfold occStep
    rw [if_pos hc]
    simp [occInit]

/-- C6 witness: the amended statement evaluated at a first LOW sample
at 2000 ms. -/
theorem c6_witness :
    occStep occInit false 2000 =
      ({ visitorCount := 0, isOccupied := true, lastSensorState := false,
         lastDetectionTime := 2000 }, some OccEvent.occupied) :=
  (c6_first_sample 2000 (by decide)).2

/-- C4 counterexample: the claim predicts fan states [Off, On, On, Off]
for the scalar sequence [210, 225, 215, 195] from Off, relying on two
distinct thresholds 200/220.  The sketch uses the single constant 200
for both directions, so 210 already switches the fan on and the actual
trace is [On, On, On, Off]. -/
theorem c4_counterexample :
    fanRun false [210, 225, 215, 195] = [true, true, true, false] ∧
    fanRun false [210, 225, 215, 195] ≠ [false, true, true, false] := by
  decide

/-- C4 amended: the fan controller is a two-state threshold machine with
a single cutoff, OFF_THRESHOLD = ON_THRESHOLD = 200: Off switches to On
exactly when the aggregate scalar exceeds 200 and On switches to Off
exactly when it is at most 200; feeding [210, 225, 215, 195] from Off
yields [On, On, On, Off]. -/
theorem c4_single_threshold (a : ℚ) :
    (controlFan false a = true ↔ 200 < a) ∧
    (controlFan true a = false ↔ a ≤ 200) ∧
    fanRun false [210, 225, 215, 195] = [true, true, true, false] := by
  refine ⟨?_, ?_, by decide⟩
  · unfold controlFan
    by_cases hgt : (200 : ℚ) < a
    · simp [hgt]
    · have hle : a ≤ 200 := le_of_not_lt hgt
      simp [hgt, not_lt.mpr hle]
  · unfold controlFan
    by_cases hgt : (200 : ℚ) < a
    · simp [hgt, not_le.mpr hgt]
    · have hle : a ≤ 200 := le_of_not_lt hgt
      simp [hgt, hle]

/-- C5 counterexample: the claim says an out-of-range reading leaves the
channel value at its last-known value and never replaces it with zero.
In the analog receiver sketch the raw value 2000 (outside 0..1023) is
replaced with 0 regardless of the previously stored value 512. -/
theorem c5_counterexample :
    receiveStep 512 2000 = 0 ∧ receiveStep 512 2000 ≠ 512 := by
  decide

/-- C5 amended: for every raw reading outside the documented analog
range 0..1023, the sketch substitutes the raw value 0 before the AQI
conversion; there is no validity flag and the last-known value is not
retained. -/
theorem c5_zero_substitution (stored raw : Int) (h : raw < 0 ∨ 1023 < raw) :
    receiveStep stored raw = 0 := by
  unfold receiveStep adjustedRaw
  rw [if_pos h]

/-- C5 witness: the amended statement at stored value 512 and raw
reading 2000. -/
theorem c5_witness : receiveStep 512 2000 = 0 :=
  c5_zero_substitution 512 2000 (by decide)

/-- C9 counterexample: the claim says a pulsed freshener does not pulse
again until the aggregate scalar has dropped below FRESHENER_THRESHOLD
(300) and a cooldown has elapsed.  The sketch re-arms on any tick with
avgAQI <= 300 and no vacate event and has no cooldown timer: over the
tick sequence (310, no vacate), (300, no vacate), (310, no vacate) it
pulses twice although the scalar never drops below 300. -/
theorem c9_counterexample :
    freshRun false [(310, false), (300, false), (310, false)] =
      [true, false, true] ∧
    ¬ ((310 : ℚ) < 300) ∧ ¬ ((300 : ℚ) < 300) := by
  decide

/-- C9 amended: after a pulse the latch stays set — and no further pulse
occurs — as long as every tick has aggregate scalar above 300 or carries
a vacate event; the latch clears (allowing a new pulse) only on a tick
with scalar at most 300 and no vacate event, with no cooldown timer.  In
particular the freshener never re-pulses merely because the scalar stays
above the threshold. -/
theorem c9_no_repulse (ticks : List (ℚ × Bool))
    (h : ∀ p ∈ ticks, 300 < p.1 ∨ p.2 = true) :
    freshRun true ticks = ticks.map (fun _ => false) := by
  induction ticks with
  | nil => simp [freshRun]
  | cons x rest ih =>
    obtain ⟨a, v⟩ := x
    have hx := h (a, v) (List.mem_cons_self (a, v) rest)
    have hstep : controlFreshener true a v = (true, false) := by
      unfold controlFreshener
      have hnot1 : ¬ ((a > 300 ∨ v = true) ∧ (true : Bool) = false) := by
        rintro ⟨-, hbad⟩
        cases hbad
      rw [if_neg hnot1]
      have hnot2 : ¬ (a ≤ 300 ∧ v = false) := by
        rintro ⟨hle, hvf⟩
        rcases hx with hgt | hv
        · have hgt2 : (300 : ℚ) < a := hgt
          exact absurd hle (not_le.mpr hgt2)
        · have hv2 : v = true := hv
          rw [hv2] at hvf
          cases hvf
      rw [if_neg hnot2]
    show (controlFreshener true a v).2 :: freshRun (controlFreshener true a v).1 rest =
      false :: rest.map (fun _ => false)
    rw [hstep]
    exact congrArg (List.cons false)
      (ih (fun p hp => h p (List.mem_cons_of_mem (a, v) hp)))

/-- C9 witness: two ticks that stay above the threshold or carry a
vacate event produce no pulses from the latched state. -/
theorem c9_witness :
    freshRun true [(310, false), (400, true)] = [false, false] :=
  c9_no_repulse [(310, false), (400, true)] (by decide)

/-! ## Aggregator lemmas -/

/-- When some reading is valid, healthyMean is exactly the arithmetic
mean of the valid readings. -/
theorem healthyMean_of_exists_valid (readings : List SensorReading)
    (h : ∃ r ∈ readings, r.valid = true) :
    healthyMean readings =
      some (((readings.filter (fun r => r.valid)).map (fun r => r.value)).sum /
        ((readings.filter (fun r => r.valid)).length : ℚ)) := by
  rcases h with ⟨r, hr, hv⟩
  have hmem : r ∈ readings.filter (fun r => r.valid) :=
    List.mem_filter.mpr ⟨hr, hv⟩
  have hne : ¬ ((readings.filter (fun r => r.valid)).map
      (fun r => r.value)).isEmpty = true := by
    intro hemp
    rw [List.isEmpty_iff] at hemp
    have : r.value ∈ (readings.filter (fun r => r.valid)).map (fun r => r.value) :=
      List.mem_map_of_mem (fun r => r.value) hmem
    rw [hemp] at this
    cases this
  unfold healthyMean
  simp only [List.length_map] at hne ⊢
  rw [if_neg hne]

/-- When no reading is valid, healthyMean is none. -/
theorem healthyMean_of_all_invalid (readings : List SensorReading)
    (h : ∀ r ∈ readings, r.valid = false) :
    healthyMean readings = none := by
  have hfil : readings.filter (fun r => r.valid) = [] := by
    rw [List.filter_eq_nil_iff]
    intro r hr
    rw [h r hr]
    simp
  unfold healthyMean
  rw [hfil]
  simp

/-- C1: when k of n channels are faulted with k < n (some reading is
valid), the aggregate assigns to each faulted channel exactly the
arithmetic mean of the valid readings, leaves each valid channel's value
unchanged, and its faulted_channels are exactly the ids of the invalid
readings (spec-modelled: aggregation lives in the absent
odor-mod-main.py). -/
theorem c1_fault_substitution (carried : ℚ) (readings : List SensorReading)
    (h : ∃ r ∈ readings, r.valid = true) :
    (∀ r ∈ readings, r.valid = false →
      (r.channel_id,
        ((readings.filter (fun r => r.valid)).map (fun r => r.value)).sum /
          ((readings.filter (fun r => r.valid)).length : ℚ)) ∈
        (aggregateStep carried readings).1.values) ∧
    (∀ r ∈ readings, r.valid = true →
      (r.channel_id, r.value) ∈ (aggregateStep carried readings).1.values) ∧
    (∀ c : Nat, c ∈ (aggregateStep carried readings).1.faulted_channels ↔
      ∃ r ∈ readings, r.valid = false ∧ r.channel_id = c) := by
  have hm := healthyMean_of_exists_valid readings h
  unfold aggregateStep
  rw [hm]
  refine ⟨?_, ?_, ?_⟩
  · intro r hr hrv
    simp only [List.mem_map]
    exact ⟨r, hr, by rw [hrv]; simp⟩
  · intro r hr hrv
    simp only [List.mem_map]
    exact ⟨r, hr, by rw [hrv]; simp⟩
  · intro c
    simp only [List.mem_map, List.mem_filter]
    constructor
    · rintro ⟨r, ⟨hr, hrv⟩, hc⟩
      exact ⟨r, hr, by simpa using hrv, hc⟩
    · rintro ⟨r, hr, hrv, hc⟩
      exact ⟨r, ⟨hr, by simpa using hrv⟩, hc⟩

/-- C1 witness: channels 0 and 1 read 4 and 6 validly, channel 2 is
faulted; the aggregate carries the faulted channel at the mean 5 of the
valid readings, keeps channel 0 at 4, and faults exactly channel 2. -/
theorem c1_witness :
    ((2 : Nat), (5 : ℚ)) ∈ (aggregateStep 0
      [⟨0, 4, true⟩, ⟨1, 6, true⟩, ⟨2, 99, false⟩]).1.values ∧
    ((0 : Nat), (4 : ℚ)) ∈ (aggregateStep 0
      [⟨0, 4, true⟩, ⟨1, 6, true⟩, ⟨2, 99, false⟩]).1.values ∧
    ((2 : Nat) ∈ (aggregateStep 0
      [⟨0, 4, true⟩, ⟨1, 6, true⟩, ⟨2, 99, false⟩]).1.faulted_channels) := by
  have h := c1_fault_substitution 0 [⟨0, 4, true⟩, ⟨1, 6, true⟩, ⟨2, 99, false⟩]
    ⟨⟨0, 4, true⟩, by simp, rfl⟩
  refine ⟨?_, ?_, ?_⟩
  · have h1 := h.1 ⟨2, 99, false⟩ (by simp) rfl
    have hmean : (((([⟨0, 4, true⟩, ⟨1, 6, true⟩, ⟨2, 99, false⟩] :
        List SensorReading).filter (fun r => r.valid)).map (fun r => r.value)).sum /
          ((([⟨0, 4, true⟩, ⟨1, 6, true⟩, ⟨2, 99, false⟩] :
        List SensorReading).filter (fun r => r.valid)).length : ℚ)) = 5 := by
      norm_num [List.filter]
    rw [hmean] at h1
    exact h1
  · exact h.2.1 ⟨0, 4, true⟩ (by simp) rfl
  · exact (h.2.2 2).mpr ⟨⟨2, 99, false⟩, by simp, rfl, rfl⟩

/-- C2: on a tick in which every channel is invalid, the aggregate is
still produced — faulted_channels lists every channel, every channel's
value is the carried healthy mean of the last successful tick, and the
carried mean is preserved for the next tick (spec-modelled: aggregation
lives in the absent odor-mod-main.py). -/
theorem c2_all_faulted (carried : ℚ) (readings : List SensorReading)
    (h : ∀ r ∈ readings, r.valid = false) :
    (aggregateStep carried readings).1.faulted_channels =
      readings.map (fun r => r.channel_id) ∧
    (aggregateStep carried readings).1.values =
      readings.map (fun r => (r.channel_id, carried)) ∧
    (aggregateStep carried readings).2 = carried := by
  have hm := healthyMean_of_all_invalid readings h
  unfold aggregateStep
  rw [hm]
  exact ⟨rfl, rfl, rfl⟩

/-- C2 witness: with carried mean 7 and both channels faulted, the
aggregate faults both channels and fills both values with 7. -/
theorem c2_witness :
    (aggregateStep 7 [⟨0, 1, false⟩, ⟨1, 2, false⟩]).1.faulted_channels =
      [0, 1] ∧
    (aggregateStep 7 [⟨0, 1, false⟩, ⟨1, 2, false⟩]).1.values =
      [(0, 7), (1, 7)] ∧
    (aggregateStep 7 [⟨0, 1, false⟩, ⟨1, 2, false⟩]).2 = 7 := by
  have h := c2_all_faulted 7 [⟨0, 1, false⟩, ⟨1, 2, false⟩] (by decide)
  simpa using h

/-! ## Gateway lemmas -/

/-- The retry pass attempts exactly the SyncFailed records, in store
order, whatever the event outcome and counters are. -/
theorem drainRetries_attempts (ok : Bool) (l : List PersistedRecord) :
    ∀ (nextId : Nat) (remote : List (Nat × Nat)),
      (drainRetries ok nextId remote l).2.2.2 =
        (l.filter (fun r => r.sync_state = SyncState.SyncFailed)).map
          (fun r => r.timestamp) := by
  induction l with
  | nil => intro nextId remote; simp [drainRetries]
  | cons r rest ih =>
    intro nextId remote
    by_cases hs : r.sync_state = SyncState.SyncFailed
    · rcases Bool.eq_false_or_eq_true ok with hok | hok
      · subst hok
        simp [drainRetries, hs, List.filter_cons, ih]
      · subst hok
        simp [drainRetries, hs, List.filter_cons, ih]
    · simp [drainRetries, hs, List.filter_cons, ih]

/-- Unfolding drainRetries on a SyncFailed head during a successful
wave. -/
theorem drainRetries_cons_failed_ok (nextId : Nat) (remote : List (Nat × Nat))
    (r : PersistedRecord) (rest : List PersistedRecord)
    (hs : r.sync_state = SyncState.SyncFailed) :
    drainRetries true nextId remote (r :: rest) =
      ({ record_id := some nextId, timestamp := r.timestamp,
         sync_state := SyncState.Synced } ::
           (drainRetries true (nextId + 1) (remote ++ [(nextId, r.timestamp)]) rest).1,
       (drainRetries true (nextId + 1) (remote ++ [(nextId, r.timestamp)]) rest).2.1,
       (drainRetries true (nextId + 1) (remote ++ [(nextId, r.timestamp)]) rest).2.2.1,
       r.timestamp ::
         (drainRetries true (nextId + 1) (remote ++ [(nextId, r.timestamp)]) rest).2.2.2) := by
  simp [drainRetries, hs]

/-- Unfolding drainRetries on a SyncFailed head during a failed wave. -/
theorem drainRetries_cons_failed_fail (nextId : Nat) (remote : List (Nat × Nat))
    (r : PersistedRecord) (rest : List PersistedRecord)
    (hs : r.sync_state = SyncState.SyncFailed) :
    drainRetries false nextId remote (r :: rest) =
      (r :: (drainRetries false nextId remote rest).1,
       (drainRetries false nextId remote rest).2.1,
       (drainRetries false nextId remote rest).2.2.1,
       r.timestamp :: (drainRetries false nextId remote rest).2.2.2) := by
  simp [drainRetries, hs]

/-- Unfolding drainRetries on a head that is not SyncFailed. -/
theorem drainRetries_cons_skip (ok : Bool) (nextId : Nat) (remote : List (Nat × Nat))
    (r : PersistedRecord) (rest : List PersistedRecord)
    (hs : ¬ r.sync_state = SyncState.SyncFailed) :
    drainRetries ok nextId remote (r :: rest) =
      (r :: (drainRetries ok nextId remote rest).1,
       (drainRetries ok nextId remote rest).2.1,
       (drainRetries ok nextId remote rest).2.2.1,
       (drainRetries ok nextId remote rest).2.2.2) := by
  simp [drainRetries, hs]

/-- A failed retry wave changes nothing: the store, the remote copy and
the id counter are returned untouched. -/
theorem drainRetries_fail (l : List PersistedRecord) :
    ∀ (nextId : Nat) (remote : List (Nat × Nat)),
      (drainRetries false nextId remote l).1 = l ∧
      (drainRetries false nextId remote l).2.1 = remote ∧
      (drainRetries false nextId remote l).2.2.1 = nextId := by
  induction l with
  | nil => intro nextId remote; simp [drainRetries]
  | cons r rest ih =>
    intro nextId remote
    rcases ih nextId remote with ⟨ih1, ih2, ih3⟩
    by_cases hs : r.sync_state = SyncState.SyncFailed
    · rw [drainRetries_cons_failed_fail nextId remote r rest hs]
      exact ⟨by rw [ih1], ih2, ih3⟩
    · rw [drainRetries_cons_skip false nextId remote r rest hs]
      exact ⟨by rw [ih1], ih2, ih3⟩

/-- The retry pass only appends to the remote store. -/
theorem drainRetries_remote_mono (ok : Bool) (l : List PersistedRecord) :
    ∀ (nextId : Nat) (remote : List (Nat × Nat)) (p : Nat × Nat),
      p ∈ remote → p ∈ (drainRetries ok nextId remote l).2.1 := by
  induction l with
  | nil => intro nextId remote p hp; simpa [drainRetries] using hp
  | cons r rest ih =>
    intro nextId remote p hp
    by_cases hs : r.sync_state = SyncState.SyncFailed
    · rcases Bool.eq_false_or_eq_true ok with hok | hok
      · subst hok
        rw [drainRetries_cons_failed_ok nextId remote r rest hs]
        exact ih (nextId + 1) (remote ++ [(nextId, r.timestamp)]) p
          (List.mem_append_left _ hp)
      · subst hok
        rw [drainRetries_cons_failed_fail nextId remote r rest hs]
        exact ih nextId remote p hp
    · rw [drainRetries_cons_skip ok nextId remote r rest hs]
      exact ih nextId remote p hp

/-- A successful retry wave turns every SyncFailed record into a Synced
record whose back-filled id also appears in the remote store, paired
with the record's timestamp. -/
theorem drainRetries_success (l : List PersistedRecord) :
    ∀ (nextId : Nat) (remote : List (Nat × Nat)) (r : PersistedRecord),
      r ∈ l → r.sync_state = SyncState.SyncFailed →
      ∃ rid : Nat,
        ({ record_id := some rid, timestamp := r.timestamp,
           sync_state := SyncState.Synced } : PersistedRecord) ∈
            (drainRetries true nextId remote l).1 ∧
        (rid, r.timestamp) ∈ (drainRetries true nextId remote l).2.1 := by
  induction l with
  | nil => intro nextId remote r hr; cases hr
  | cons r0 rest ih =>
    intro nextId remote r hr hs
    rcases List.mem_cons.mp hr with hr0 | hrest
    · subst hr0
      rw [drainRetries_cons_failed_ok nextId remote r rest hs]
      refine ⟨nextId, List.mem_cons_self _ _, ?_⟩
      exact drainRetries_remote_mono true rest (nextId + 1)
        (remote ++ [(nextId, r.timestamp)]) (nextId, r.timestamp)
        (List.mem_append_right _ (List.mem_singleton.mpr rfl))
    · by_cases hs0 : r0.sync_state = SyncState.SyncFailed
      · rcases ih (nextId + 1) (remote ++ [(nextId, r0.timestamp)]) r hrest hs with
          ⟨rid, hmem, hrem⟩
        rw [drainRetries_cons_failed_ok nextId remote r0 rest hs0]
        exact ⟨rid, List.mem_cons_of_mem _ hmem, hrem⟩
      · rcases ih nextId remote r hrest hs with ⟨rid, hmem, hrem⟩
        rw [drainRetries_cons_skip true nextId remote r0 rest hs0]
        exact ⟨rid, List.mem_cons_of_mem _ hmem, hrem⟩

/-- The retry attempts of a health-recovered event are the timestamps of
the SyncFailed records of the local store, in store order. -/
theorem healthRecovered_attempts (st : GatewayState) (ok : Bool) :
    (healthRecovered st ok).2 =
      (st.localStore.filter (fun r => r.sync_state = SyncState.SyncFailed)).map
        (fun r => r.timestamp) := by
  show (drainRetries ok st.nextRemoteId st.remoteStore st.localStore).2.2.2 = _
  exact drainRetries_attempts ok st.localStore st.nextRemoteId st.remoteStore

/-- A health-recovered event during which the remote store is still
refusing writes leaves the gateway state unchanged. -/
theorem healthRecovered_fail (st : GatewayState) :
    (healthRecovered st false).1 = st := by
  rcases st with ⟨ls, rs, ni⟩
  rcases drainRetries_fail ls ni rs with ⟨h1, h2, h3⟩
  show GatewayState.mk (drainRetries false ni rs ls).1
    (drainRetries false ni rs ls).2.1 (drainRetries false ni rs ls).2.2.1 = _
  rw [h1, h2, h3]

/-- C3: a persistence attempt made while the remote store is down still
performs the local durable write (the record is appended to the local
store) and creates the record with sync_state = SyncFailed and no remote
id, leaving the remote store untouched; every subsequent health-recovered
event retries that record exactly once (and a failed event leaves the
state unchanged, so the same holds at the next event); on the first
successful retry the record becomes Synced with a back-filled
remote-assigned id that also appears, paired with the record's
timestamp, in the remote store — local and remote copies then agree on
record_id (spec-modelled: persistence lives in the absent
odor-mod-main.py). -/
theorem c3_local_first_sync (st : GatewayState) (ts : Nat)
    (h : ∀ r ∈ st.localStore, r.timestamp ≠ ts) :
    (gatewayRecord st false ts).localStore =
      st.localStore ++ [{ record_id := none, timestamp := ts,
                          sync_state := SyncState.SyncFailed }] ∧
    (gatewayRecord st false ts).remoteStore = st.remoteStore ∧
    (∀ ok : Bool, (healthRecovered (gatewayRecord st false ts) ok).2.count ts = 1) ∧
    (healthRecovered (gatewayRecord st false ts) false).1 = gatewayRecord st false ts ∧
    (∃ rid : Nat,
      ({ record_id := some rid, timestamp := ts,
         sync_state := SyncState.Synced } : PersistedRecord) ∈
          (healthRecovered (gatewayRecord st false ts) true).1.localStore ∧
      (rid, ts) ∈ (healthRecovered (gatewayRecord st false ts) true).1.remoteStore) := by
  have hloc : (gatewayRecord st false ts).localStore =
      st.localStore ++ [{ record_id := none, timestamp := ts,
                          sync_state := SyncState.SyncFailed }] := by
    simp [gatewayRecord]
  have hrem : (gatewayRecord st false ts).remoteStore = st.remoteStore := by
    simp [gatewayRecord]
  refine ⟨hloc, hrem, ?_, healthRecovered_fail _, ?_⟩
  · intro ok
    rw [healthRecovered_attempts, hloc, List.filter_append, List.map_append]
    have hone : (List.filter (fun r => r.sync_state = SyncState.SyncFailed)
        [({ record_id := none, timestamp := ts,
            sync_state := SyncState.SyncFailed } : PersistedRecord)]).map
          (fun r => r.timestamp) = [ts] := by
      simp
    rw [hone, List.count_append]
    have hzero : ((st.localStore.filter
        (fun r => r.sync_state = SyncState.SyncFailed)).map
          (fun r => r.timestamp)).count ts = 0 := by
      rw [List.count_eq_zero]
      intro hmem
      rcases List.mem_map.mp hmem with ⟨r, hrf, hts⟩
      exact h r (List.mem_filter.mp hrf).1 hts
    rw [hzero]
    simp
  · have hmem : PersistedRecord.mk none ts SyncState.SyncFailed ∈
        (gatewayRecord st false ts).localStore := by
      rw [hloc]
      exact List.mem_append_right _ (List.mem_singleton.mpr rfl)
    have hdr := drainRetries_success (gatewayRecord st false ts).localStore
      (gatewayRecord st false ts).nextRemoteId
      (gatewayRecord st false ts).remoteStore
      (PersistedRecord.mk none ts SyncState.SyncFailed)
      hmem rfl
    rcases hdr with ⟨rid, hmem2, hrem2⟩
    exact ⟨rid, hmem2, hrem2⟩

/-- C3 witness: from an empty gateway with the remote down, writing at
timestamp 7 and then receiving one successful health-recovered event
retries the record exactly once, syncing it under remote id 0 in both
stores. -/
theorem c3_witness :
    (healthRecovered (gatewayRecord
        { localStore := [], remoteStore := [], nextRemoteId := 0 } false 7)
      true).2.count 7 = 1 ∧
    ({ record_id := some 0, timestamp := 7,
       sync_state := SyncState.Synced } : PersistedRecord) ∈
      (healthRecovered (gatewayRecord
          { localStore := [], remoteStore := [], nextRemoteId := 0 } false 7)
        true).1.localStore ∧
    ((0 : Nat), (7 : Nat)) ∈
      (healthRecovered (gatewayRecord
          { localStore := [], remoteStore := [], nextRemoteId := 0 } false 7)
        true).1.remoteStore := by
  have h := c3_local_first_sync
    { localStore := [], remoteStore := [], nextRemoteId := 0 } 7 (by simp)
  exact ⟨h.2.2.1 true, by decide, by decide⟩
